import Mathlib

/-!
Shallow embedding of the INVENTARIO_CRUD backend (Express + Mongoose).

Each definition below mirrors one function of the JavaScript source,
statement by statement, over an explicit in-memory store.  The Mongo
collaborator is modelled per its abstract interface: a collection is a
list of records, `findById`/`findOne` are `List.find?`, `updateMany`
maps over the matching records, `deleteMany` filters them out, and a
query filter on a path that the schema does not define matches no
document.  JavaScript `undefined` is `Option.none`; property access on
a missing key yields `none`; an expression that throws lands in the
surrounding `catch` block, which the handlers translate into a 500
response, modelled by a dedicated `serverError` constructor.
-/

namespace Inventario

/-! ## Data model (models/User.js, models/Subcategory.js, Product/Category schemas) -/

/-- How a user's `password` field is stored: `hashed p` is the bcrypt
digest of the plaintext `p` (salted hashing abstracted as a tagged
constructor), `plain p` is the plaintext written verbatim. The
`pre('save')` hook of models/User.js always stores `hashed`. -/
inductive StoredPassword where
  | plain (p : String)
  | hashed (p : String)
deriving DecidableEq, Repr

structure User where
  id : Nat
  username : String
  email : String
  password : StoredPassword
  role : String
  active : Bool
deriving DecidableEq, Repr

structure Category where
  id : Nat
  name : String
  description : String
  active : Bool
deriving DecidableEq, Repr

structure Subcat where
  id : Nat
  name : String
  description : String
  /-- mandatory reference to the owning Category -/
  category : Nat
  active : Bool
deriving DecidableEq, Repr

structure Product where
  id : Nat
  name : String
  description : String
  price : Nat
  stock : Nat
  /-- reference to a Category (the Product's own `category` field) -/
  category : Nat
  /-- reference to a Subcategory -/
  subcategory : Nat
  active : Bool
deriving DecidableEq, Repr

/-- The persistence collaborator's durable state: one list per collection. -/
structure Store where
  categories : List Category
  subcats : List Subcat
  products : List Product
deriving DecidableEq, Repr

/-- `findById` on the Category collection. -/
def findCategory (s : Store) (id : Nat) : Option Category :=
  s.categories.find? (fun c => c.id == id)

/-- `findById` on the Subcategory collection. -/
def findSubcat (s : Store) (id : Nat) : Option Subcat :=
  s.subcats.find? (fun sc => sc.id == id)

/-- `findById` on the Product collection. -/
def findProduct (s : Store) (id : Nat) : Option Product :=
  s.products.find? (fun p => p.id == id)

/-! ## Role gate (middlewares/role.js) -/

/-- Outcome of an Express middleware: pass control on, or answer with
an error status. -/
inductive GateResult where
  | proceed
  | unauthorized (message : String)
  | forbidden (requiredRoles : List String)
deriving DecidableEq, Repr

/-- The request-context properties attached by earlier middleware,
as the assoc list of (property name, value).  `verifyTokenfn` sets
exactly `userId`, `userRole`, `userEmail` (authJwt.js:81-83). -/
def getProp (req : List (String × String)) (k : String) : Option String :=
  (req.find? (fun kv => kv.1 == k)).map (fun kv => kv.2)

/-- JavaScript `array.includes(v)` where `v` may be `undefined`:
a string array never contains `undefined`. -/
def includesOpt (xs : List String) : Option String → Bool
  | some v => xs.contains v
  | none => false

/-- JavaScript truthiness of an optional string: `undefined` and the
empty string are falsy. -/
def jsTruthyStr : Option String → Bool
  | some v => !v.isEmpty
  | none => false

/-- `checkRole(...allowedRoles)` (role.js:35-58).  The first guard is
the truthiness test `!req.userRole` (line 40), answering 401 when the
property is absent or the empty string.  Note the membership test on
line 48 reads `req.uerRole` — not `req.userRole` — so the tested value
is the (always absent) `uerRole` property. -/
def checkRole (allowedRoles : List String) (req : List (String × String)) : GateResult :=
  if !(jsTruthyStr (getProp req "userRole")) then
    .unauthorized "Token invalido o expirado"
  else if !(includesOpt allowedRoles (getProp req "uerRole")) then
    .forbidden allowedRoles
  else
    .proceed

/-! ## Category lifecycle (controllers/categoryController.js) -/

/-- Response of `deleteCategory` (categoryController.js:242-320). -/
inductive DeleteCategoryResult where
  | notFound
  | softDeleted (category : Category)
      (subcategoriesDeactivated : Nat) (productsDeactivated : Nat)
  | hardDeleted (category : Category)
deriving DecidableEq, Repr

/-- Reading the `subcategory` path of a Subcategory document: the
subcategory schema (models/Subcategory.js) defines no such path, so the
value is `undefined` on every document. -/
def subcatSubcategoryField (_sc : Subcat) : Option Nat := none

/-- Mongo `$in` on an optional field value: a document without the
field matches no `$in` list. -/
def inMatches (v : Option Nat) (ids : List Nat) : Bool :=
  match v with
  | some x => ids.contains x
  | none => false

/-- Hard-delete step: `Product.deleteMany({ category: id })`
(categoryController.js:265). -/
def hardDeleteStep1 (id : Nat) (s : Store) : Store :=
  { s with products := s.products.filter (fun p => !(p.category == id)) }

/-- Hard-delete steps on the Subcategory collection:
`Subcategory.deleteMany({ subcategory: { $in: subIds } })`
(categoryController.js:268) — a filter on the nonexistent `subcategory`
path of Subcategory documents, matching none — followed by
`Subcategory.deleteMany({ category: id })` (line 271). -/
def hardDeleteStep2 (id : Nat) (subIds : List Nat) (s : Store) : Store :=
  { s with subcats :=
      ((s.subcats.filter
          (fun sc => !(inMatches (subcatSubcategoryField sc) subIds))).filter
        (fun sc => !(sc.category == id))) }

/-- Hard-delete step: `Category.findByIdAndDelete(id)`
(categoryController.js:274). -/
def hardDeleteStep3 (id : Nat) (s : Store) : Store :=
  { s with categories := s.categories.filter (fun c => !(c.id == id)) }

/-- `deleteCategory` (categoryController.js:242-320).  `hard` is
`req.query.hardDelete === 'true'`.  The soft path mutates the found
document's `active` flag and saves it, then issues the two
`updateMany({ category: id }, { active: false })` bulk writes; their
`modifiedCount` is the number of matched documents whose stored value
actually changed, i.e. those still active. -/
def deleteCategory (hard : Bool) (id : Nat) (s : Store) :
    DeleteCategoryResult × Store :=
  match findCategory s id with
  | none => (.notFound, s)
  | some category =>
    if hard then
      let subIds := (s.subcats.filter (fun sc => sc.category == id)).map (·.id)
      (.hardDeleted category,
        hardDeleteStep3 id (hardDeleteStep2 id subIds (hardDeleteStep1 id s)))
    else
      let category' := { category with active := false }
      let subModified :=
        (s.subcats.filter (fun sc => sc.category == id && sc.active)).length
      let prodModified :=
        (s.products.filter (fun p => p.category == id && p.active)).length
      (.softDeleted category' subModified prodModified,
        { categories :=
            s.categories.map
              (fun c => if c.id == id then { c with active := false } else c),
          subcats :=
            s.subcats.map
              (fun sc => if sc.category == id then { sc with active := false } else sc),
          products :=
            s.products.map
              (fun p => if p.category == id then { p with active := false } else p) })

/-- Fields a category update request may carry in its body. -/
structure CategoryUpdateBody where
  name : Option String
  description : Option String
  active : Option Bool
deriving DecidableEq, Repr

/-- Response of `updateCategory` / `updateSubcategory`. -/
inductive UpdateResult where
  | ok (id : Nat)
  | badRequest (message : String)
  | notFound
  | serverError
deriving DecidableEq, Repr

/-- `updateCategory` (categoryController.js:165-217).  The handler is
declared `async (reportError, res)`, so its first statement
`const { name, description } = req.body` dereferences the unbound
identifier `req` and throws ReferenceError; the catch block turns this
into a 500 response before any store access.  (Even the unreachable
body only ever places `name` and `description` in `updateData`, never
`active`.)  Every call therefore answers 500 and leaves the store
unchanged. -/
def updateCategory (_id : Nat) (_body : CategoryUpdateBody) (s : Store) :
    UpdateResult × Store :=
  (.serverError, s)

/-- The update-object entry `field ? field.trim() : undefined`: a falsy
value yields `undefined`, which the driver drops from the `$set`,
keeping the stored value. -/
def trimmedOrKeep (v : Option String) (old : String) : String :=
  match v with
  | some n => if n.isEmpty then old else n.trim
  | none => old

/-- `updateSubcategory` (subcategoryController.js:158-198).  The body
destructures `{ name, description, category }` — `active` is never
read — and issues one `findByIdAndUpdate` whose update object carries
`name`/`description` (trimmed when truthy; `undefined` entries are
dropped by the driver) and `category`.  When `name` is truthy the
handler first checks `Category.findById(category)` (even when the
category is not being changed; `findById(undefined)` finds nothing). -/
def updateSubcategory (id : Nat)
    (name description : Option String) (category : Option Nat) (s : Store) :
    UpdateResult × Store :=
  if jsTruthyStr name && (category.bind (findCategory s ·)).isNone then
    (.badRequest "La categoria no existe", s)
  else
    match findSubcat s id with
    | none => (.notFound, s)
    | some _ =>
      (.ok id,
        { s with subcats :=
            s.subcats.map (fun sc =>
              if sc.id == id then
                { sc with
                  name := trimmedOrKeep name sc.name,
                  description := trimmedOrKeep description sc.description,
                  category := category.getD sc.category }
              else sc) })

/-! ## Product create/update (controllers/productController.js) -/

/-- JavaScript truthiness of an optional number: `undefined` and `0`
are falsy. -/
def jsTruthyNum : Option Nat → Bool
  | some v => !(v == 0)
  | none => false

/-- Response of `createProduct` / `updateProduct`.  `badRequest` is a
400 answer, `notFoundErr` a 404 answer. -/
inductive ProductResult where
  | created (p : Product)
  | updated (p : Product)
  | badRequest (message : String)
  | notFoundErr (message : String)
deriving DecidableEq, Repr

/-- `createProduct` (productController.js:29-116).  The six-field
presence test treats `undefined`/empty strings/0 as missing (id
references, being ObjectId strings, are missing only when absent).
Then: the category must exist (else 404); the subcategory is checked
with the single query `findOne({ _id: subcategory, category })`, whose
failure — subcategory absent or owned by another category alike —
answers 400 with one shared message; a duplicate product name answers
400; otherwise the document is inserted. -/
def createProduct (newId : Nat) (name description : Option String)
    (price stock : Option Nat) (category subcategory : Option Nat) (s : Store) :
    ProductResult × Store :=
  match category, subcategory with
  | some catId, some subId =>
    if !(jsTruthyStr name && jsTruthyStr description
          && jsTruthyNum price && jsTruthyNum stock) then
      (.badRequest "Todos los campos son obligatorios", s)
    else if (findCategory s catId).isNone then
      (.notFoundErr "La categoria padre no existe", s)
    else
      match s.subcats.find? (fun sc => sc.id == subId && sc.category == catId) with
      | none =>
        (.badRequest "La subactegoria no existe o no pertence a la categoria especificada", s)
      | some _ =>
        if s.products.any (fun p => p.name == name.getD "") then
          (.badRequest "Ya existe un producto con ese nombre", s)
        else
          let p : Product :=
            { id := newId, name := name.getD "", description := description.getD "",
              price := price.getD 0, stock := stock.getD 0,
              category := catId, subcategory := subId, active := true }
          (.created p, { s with products := s.products ++ [p] })
  | _, _ => (.badRequest "Todos los campos son obligatorios", s)

/-- A `$set` entry guarded by `if (field)`: falsy values (absent, empty
string) are not placed in `updateData`. -/
def setIfTruthyStr (v : Option String) (old : String) : String :=
  match v with
  | some n => if n.isEmpty then old else n
  | none => old

/-- A `$set` entry guarded by `if (field)` for numbers: absent and `0`
are not placed in `updateData`. -/
def setIfTruthyNum (v : Option Nat) (old : Nat) : Nat :=
  match v with
  | some n => if n == 0 then old else n
  | none => old

/-- The update object `updateProduct` builds from the truthy body
fields, applied to a stored Product. -/
def applyProductSet (p : Product) (name description : Option String)
    (price stock : Option Nat) (category subcategory : Option Nat) : Product :=
  { p with
    name := setIfTruthyStr name p.name,
    description := setIfTruthyStr description p.description,
    price := setIfTruthyNum price p.price,
    stock := setIfTruthyNum stock p.stock,
    category := category.getD p.category,
    subcategory := subcategory.getD p.subcategory }

/-- The relation check `updateProduct` runs when a subcategory is
supplied: `findOne({ _id: subcategory, category: category || updateData.category })`
(productController.js:244-247).  Both disjuncts are the request's own
`category` value, so when the body carries no category the driver drops
the `undefined` condition and only existence of the subcategory is
checked — the stored product's category plays no part. -/
def subcatRelationOk (s : Store) (subId : Nat) (category : Option Nat) : Bool :=
  (s.subcats.find? (fun sc =>
      sc.id == subId &&
        (match category with
         | some c => sc.category == c
         | none => true))).isSome

/-- `updateProduct` (productController.js:218-287).  Checks run before
the single `findByIdAndUpdate` write; a missing category answers 400, a
failed subcategory relation check answers 404 — and a missing product
answers 400. -/
def updateProduct (id : Nat) (name description : Option String)
    (price stock : Option Nat) (category subcategory : Option Nat) (s : Store) :
    ProductResult × Store :=
  if category.isSome && (category.bind (findCategory s ·)).isNone then
    (.badRequest "La categoria solicitada no existe", s)
  else if subcategory.isSome
      && !(subcatRelationOk s (subcategory.getD 0) category) then
    (.notFoundErr "La subcategoria no existe o no pertenece a la categoria", s)
  else
    match findProduct s id with
    | none => (.badRequest "Producto no encontrado", s)
    | some p =>
      let p' := applyProductSet p name description price stock category subcategory
      (.updated p',
        { s with products := s.products.map (fun q => if q.id == id then p' else q) })

/-! ## Users (controllers/userController.js, controllers/authControllers.js,
models/User.js) -/

/-- `signup` (authControllers.js:21-69) and `createUser`
(userController.js:132-166) both build a new document and call
`user.save()`, which runs the `pre('save')` hook of models/User.js:
the stored password is the bcrypt hash of the supplied plaintext. -/
def saveNewUser (id : Nat) (username email plainPassword role : String)
    (users : List User) : List User :=
  users ++ [{ id := id, username := username, email := email,
              password := .hashed plainPassword, role := role, active := true }]

/-- Fields a user-update request body may carry. -/
structure UserUpdateBody where
  username : Option String
  email : Option String
  password : Option String
  role : Option String
  active : Option Bool
deriving DecidableEq, Repr

/-- The write of `updateUser`: `findByIdAndUpdate(id, { $set: req.body })`
(userController.js:204-208) applies the body fields directly to the
stored document.  `findByIdAndUpdate` runs no `pre('save')` hook, so a
password in the body is stored as the plaintext itself. -/
def applyUserSet (u : User) (b : UserUpdateBody) : User :=
  { u with
    username := b.username.getD u.username,
    email := b.email.getD u.email,
    password := match b.password with
                | some p => .plain p
                | none => u.password,
    role := b.role.getD u.role,
    active := b.active.getD u.active }

/-- The password-free projection that `.select('-password')` responses
carry: the shape has no password field at all. -/
structure PublicUser where
  id : Nat
  username : String
  email : String
  role : String
  active : Bool
deriving DecidableEq, Repr

def User.toPublic (u : User) : PublicUser :=
  { id := u.id, username := u.username, email := u.email,
    role := u.role, active := u.active }

inductive UpdateUserResult where
  | forbidden (message : String)
  | notFound
  | updated (u : PublicUser)
deriving DecidableEq, Repr

/-- `updateUser` (userController.js:183-231): auxiliar self-scoping and
role-change restrictions, then one `findByIdAndUpdate` with
`$set: req.body`, answered without the password field. -/
def updateUser (actorRole : String) (actorId : Nat) (targetId : Nat)
    (b : UserUpdateBody) (users : List User) : UpdateUserResult × List User :=
  if actorRole == "auxiliar" && !(actorId == targetId) then
    (.forbidden "No tienes permiso para actualizar este usuario", users)
  else if actorRole == "auxiliar" && jsTruthyStr b.role then
    (.forbidden "No tienes permiso para modificar su rol", users)
  else
    match users.find? (fun u => u.id == targetId) with
    | none => (.notFound, users)
    | some u =>
      let u' := applyUserSet u b
      (.updated u'.toPublic,
        users.map (fun v => if v.id == targetId then u' else v))

/-- Response of `deleteUser`. -/
inductive DeleteUserResult where
  | notFound
  | forbidden (message : String)
  | deleted (u : User)
  | deactivated (u : User)
  | serverError
deriving DecidableEq, Repr

/-- `deleteUser` (userController.js:251-304).  After the target lookup,
the guard on line 264 evaluates
`req.userRole === 'admin' && userToDelete.role.__id.toString() !== req.userId.toString()`:
`role` is a string, its `__id` property is `undefined`, and calling
`.toString()` on `undefined` throws TypeError whenever the left operand
is true — the catch block (which itself faults again on
`message.error`) makes every call by an admin actor on an existing
target end as a 500-class failure.  The target's own role is never
inspected.  A non-admin actor short-circuits the guard, and the
delete/deactivate proceeds unconditionally. -/
def deleteUser (actorRole : String) (_actorId : Nat) (hard : Bool)
    (targetId : Nat) (users : List User) : DeleteUserResult × List User :=
  match users.find? (fun u => u.id == targetId) with
  | none => (.notFound, users)
  | some target =>
    if actorRole == "admin" then
      (.serverError, users)
    else
      if hard then
        (.deleted target, users.filter (fun u => !(u.id == targetId)))
      else
        let target' := { target with active := false }
        (.deactivated target',
          users.map (fun u => if u.id == targetId then target' else u))

/-- Response of `sigin`. -/
inductive SigninResult where
  | badRequest (message : String)
  | serverError
deriving DecidableEq, Repr

/-- `sigin` (authControllers.js:81-167).  After the two presence
validations the handler evaluates `User.FindOne({ $or: [...] })`; the
model's static is `findOne`, so `User.FindOne` is `undefined` and the
call throws TypeError into the catch (were the lookup spelled
correctly, the comparison line would throw just the same: the bcryptjs
module is bound to the name `brypt`, and `bcrypt` is unbound).  Every
well-formed login attempt therefore answers 500: no token is issued,
neither the user-not-found nor the wrong-password answer is ever
reached, and the (filterless) lookup never consults `active`. -/
def sigin (username email password : Option String) (_users : List User) :
    SigninResult :=
  if !(jsTruthyStr email) && !(jsTruthyStr username) then
    .badRequest "Email o Username requerido!"
  else if !(jsTruthyStr password) then
    .badRequest "Contraseña requerida"
  else
    .serverError

/-! ## Credential verifier (middlewares/authJwt.js) -/

structure Claims where
  id : String
  role : String
  email : String
deriving DecidableEq, Repr

/-- A signed-claims token as decoding exposes it: the claims, the
secret the signature was produced with, and whether `exp` has passed at
verification time. -/
structure SignedToken where
  claims : Claims
  signedWith : String
  expired : Bool
deriving DecidableEq, Repr

/-- `jwt.verify(raw, secret)`: an undecodable string, a signature made
with another secret, and a passed `exp` all throw, which the
middleware's catch turns into the 401 answer; success returns the
claims. -/
def jwtVerify (t : Option SignedToken) (secret : String) : Option Claims :=
  match t with
  | some tok =>
    if tok.signedWith == secret && !tok.expired then some tok.claims else none
  | none => none

inductive AuthResult where
  /-- 403 'Token no proporcionado': no token found in either location. -/
  | unauthenticated
  /-- 401 'Token es invalido o ha expirado'. -/
  | invalidToken
  /-- `req.userId`, `req.userRole`, `req.userEmail` set verbatim from
  the claims (authJwt.js:81-83). -/
  | authenticated (userId userRole userEmail : String)
deriving DecidableEq, Repr

/-- JavaScript `String.prototype.startsWith`: case-sensitive
character-prefix comparison. -/
def strStartsWith (s pre : String) : Bool :=
  pre.data.isPrefixOf s.data

/-- Token sourcing of `verifyTokenfn` (authJwt.js:54-67): the
`authorization` header is consulted first, but with the case-sensitive
test `startsWith('bearer')`; on a miss (including the standard
`Bearer ...` capitalisation) the `x-access-token` header is consulted.
`substring(7)` drops the 7-character `bearer ` prefix. -/
def extractToken (headers : List (String × String)) : Option String :=
  match getProp headers "authorization" with
  | some a =>
    if strStartsWith a "bearer" then some (a.drop 7)
    else getProp headers "x-access-token"
  | none => getProp headers "x-access-token"

/-- `verifyTokenfn` (authJwt.js:51-98).  `decode` stands for parsing a
raw header string into a signed token, `secret` is `config.secret`. -/
def verifyTokenfn (headers : List (String × String))
    (decode : String → Option SignedToken) (secret : String) : AuthResult :=
  match extractToken headers with
  | none => .unauthenticated
  | some raw =>
    if raw.isEmpty then .unauthenticated
    else
      match jwtVerify (decode raw) secret with
      | none => .invalidToken
      | some c => .authenticated c.id c.role c.email

/-! ## Open read paths (productRoutes.js, category/subcategory routes) -/

inductive ListCategoriesResult where
  | ok (data : List Category)
  | serverError
deriving DecidableEq, Repr

/-- `getCategories` (categoryController.js:94-114).  The route attaches
no middleware, and the query chain is
`Category.find(activeFilter).scort({ createAt: -1 })`; a Query exposes
`sort` but no `scort`, so the chain throws TypeError and the catch
answers 500 — no list is ever returned, with or without
`includeInactive`. -/
def getCategories (_includeInactive : Bool) (_s : Store) : ListCategoriesResult :=
  .serverError

/-- The record list `getProducts` (productController.js:129-166)
returns; the route attaches no middleware, and `includeInactive=true`
turns the filter `{ active: { $ne: false } }` into `{}`. -/
def getProductsList (includeInactive : Bool) (s : Store) : List Product :=
  s.products.filter (fun p => includeInactive || p.active)

/-- The record list `getSubcategories` (subcategoryController.js:86-106)
returns; same filter shape, no middleware on the route. -/
def getSubcategoriesList (includeInactive : Bool) (s : Store) : List Subcat :=
  s.subcats.filter (fun sc => includeInactive || sc.active)

end Inventario

namespace Inventario

/-! ## Theorems -/

/-- C1: the role gate of role.js line 48 tests `req.uerRole`, a property
no middleware ever sets (`verifyTokenfn` attaches `userId`, `userRole`,
`userEmail` only), so membership is decided on `undefined` and fails for
every allowed-role list of role names; for every identity whose role is
truthy (a nonempty string, so past the line-40 401 guard) the gate
answers 403 Forbidden with the required-role list, including an
identity whose role is a member of `allowedRoles`. It never returns
Allow. -/
theorem checkRole_always_forbidden (allowedRoles : List String)
    (userId role email : String) (hrole : role ≠ "") :
    checkRole allowedRoles
        [("userId", userId), ("userRole", role), ("userEmail", email)] =
      GateResult.forbidden allowedRoles := by
  simp [checkRole, getProp, includesOpt, jsTruthyStr, String.isEmpty_iff, hrole]

theorem checkRole_always_forbidden_witness :
    ("admin" : String) ≠ ""
    ∧ checkRole ["admin", "coordinador", "auxiliar"]
        [("userId", "u1"), ("userRole", "admin"), ("userEmail", "a@b.c")] =
      GateResult.forbidden ["admin", "coordinador", "auxiliar"] :=
  ⟨by decide,
    checkRole_always_forbidden ["admin", "coordinador", "auxiliar"]
      "u1" "admin" "a@b.c" (by decide)⟩

/-- Reduction of the soft-delete branch on an existing Category. -/
theorem deleteCategory_soft_eq (s : Store) (id : Nat) (cat : Category)
    (h : findCategory s id = some cat) :
    deleteCategory false id s =
      (DeleteCategoryResult.softDeleted { cat with active := false }
          ((s.subcats.filter (fun sc => sc.category == id && sc.active)).length)
          ((s.products.filter (fun p => p.category == id && p.active)).length),
        { categories :=
            s.categories.map
              (fun c => if c.id == id then { c with active := false } else c),
          subcats :=
            s.subcats.map
              (fun sc => if sc.category == id then { sc with active := false } else sc),
          products :=
            s.products.map
              (fun p => if p.category == id then { p with active := false } else p) }) := by
  simp [deleteCategory, h]

/-- Reduction of the hard-delete branch on an existing Category. -/
theorem deleteCategory_hard_eq (s : Store) (id : Nat) (cat : Category)
    (h : findCategory s id = some cat) :
    deleteCategory true id s =
      (DeleteCategoryResult.hardDeleted cat,
        hardDeleteStep3 id
          (hardDeleteStep2 id
            ((s.subcats.filter (fun sc => sc.category == id)).map (·.id))
            (hardDeleteStep1 id s))) := by
  simp [deleteCategory, h]

/-- C2: soft-deleting an existing Category answers a summary holding the
Category (its flag flipped) plus the counts of Subcategories and
Products the bulk writes changed, and in the resulting store the
Category, every Subcategory whose `category` is the id, and every
Product whose own `category` field is the id are inactive. -/
theorem softDeleteCategory_cascades (s : Store) (id : Nat) (cat : Category)
    (h : findCategory s id = some cat) :
    (deleteCategory false id s).1 =
      DeleteCategoryResult.softDeleted { cat with active := false }
        ((s.subcats.filter (fun sc => sc.category == id && sc.active)).length)
        ((s.products.filter (fun p => p.category == id && p.active)).length)
    ∧ (∀ c ∈ (deleteCategory false id s).2.categories, c.id = id → c.active = false)
    ∧ (∀ sc ∈ (deleteCategory false id s).2.subcats,
        sc.category = id → sc.active = false)
    ∧ (∀ p ∈ (deleteCategory false id s).2.products,
        p.category = id → p.active = false) := by
  rw [deleteCategory_soft_eq s id cat h]
  refine ⟨rfl, ?_, ?_, ?_⟩
  · intro c hc hcid
    rw [List.mem_map] at hc
    obtain ⟨c0, _, hfc⟩ := hc
    subst hfc
    by_cases hb : c0.id == id
    · simp [hb]
    · rw [if_neg hb] at hcid ⊢
      exact absurd hcid (by simpa using hb)
  · intro sc hsc hscat
    rw [List.mem_map] at hsc
    obtain ⟨sc0, _, hfc⟩ := hsc
    subst hfc
    by_cases hb : sc0.category == id
    · simp [hb]
    · rw [if_neg hb] at hscat ⊢
      exact absurd hscat (by simpa using hb)
  · intro p hp hpcat
    rw [List.mem_map] at hp
    obtain ⟨p0, _, hfc⟩ := hp
    subst hfc
    by_cases hb : p0.category == id
    · simp [hb]
    · rw [if_neg hb] at hpcat ⊢
      exact absurd hpcat (by simpa using hb)

/-- A deactivated one-category store used to instantiate the lifecycle
theorems on concrete data. -/
def catEx : Category := { id := 1, name := "Tools", description := "d", active := true }

def subEx : Subcat :=
  { id := 10, name := "Hand Tools", description := "d", category := 1, active := true }

def prodEx : Product :=
  { id := 100, name := "Hammer", description := "d", price := 10, stock := 5,
    category := 1, subcategory := 10, active := true }

def storeEx : Store := { categories := [catEx], subcats := [subEx], products := [prodEx] }

theorem softDeleteCategory_cascades_witness :
    findCategory storeEx 1 = some catEx
    ∧ ((deleteCategory false 1 storeEx).1 =
        DeleteCategoryResult.softDeleted { catEx with active := false }
          ((storeEx.subcats.filter (fun sc => sc.category == 1 && sc.active)).length)
          ((storeEx.products.filter (fun p => p.category == 1 && p.active)).length)
      ∧ (∀ c ∈ (deleteCategory false 1 storeEx).2.categories,
          c.id = 1 → c.active = false)
      ∧ (∀ sc ∈ (deleteCategory false 1 storeEx).2.subcats,
          sc.category = 1 → sc.active = false)
      ∧ (∀ p ∈ (deleteCategory false 1 storeEx).2.products,
          p.category = 1 → p.active = false)) :=
  ⟨by decide, softDeleteCategory_cascades storeEx 1 catEx (by decide)⟩

/-- C3: hard-deleting an existing Category removes every Product whose
`category` field is the id, then every Subcategory under the id, then
the Category itself; afterwards lookup of the Category id or of any
removed descendant's id finds nothing, no surviving record references
the id, and — child-before-parent — after the Product and Subcategory
deletions but before the final step the Category is still present. -/
theorem hardDeleteCategory_cascades (s : Store) (id : Nat) (cat : Category)
    (h : findCategory s id = some cat)
    (hsub : (s.subcats.map (·.id)).Nodup)
    (hprod : (s.products.map (·.id)).Nodup) :
    (deleteCategory true id s).1 = DeleteCategoryResult.hardDeleted cat
    ∧ findCategory (deleteCategory true id s).2 id = none
    ∧ (∀ sc ∈ s.subcats, sc.category = id →
        findSubcat (deleteCategory true id s).2 sc.id = none)
    ∧ (∀ p ∈ s.products, p.category = id →
        findProduct (deleteCategory true id s).2 p.id = none)
    ∧ (∀ sc ∈ (deleteCategory true id s).2.subcats, sc.category ≠ id)
    ∧ (∀ p ∈ (deleteCategory true id s).2.products, p.category ≠ id)
    ∧ findCategory
        (hardDeleteStep2 id
          ((s.subcats.filter (fun sc => sc.category == id)).map (·.id))
          (hardDeleteStep1 id s)) id = some cat := by
  rw [deleteCategory_hard_eq s id cat h]
  refine ⟨rfl, ?_, ?_, ?_, ?_, ?_, h⟩
  · simp only [findCategory, hardDeleteStep1, hardDeleteStep2, hardDeleteStep3]
    rw [List.find?_eq_none]
    intro c hc
    rw [List.mem_filter] at hc
    simpa using hc.2
  · intro sc hsc hscat
    simp only [findSubcat, hardDeleteStep1, hardDeleteStep2, hardDeleteStep3]
    rw [List.find?_eq_none]
    intro x hx
    rw [List.mem_filter, List.mem_filter] at hx
    obtain ⟨⟨hxmem, _⟩, hxcat⟩ := hx
    intro hxid
    have hxeq : x = sc :=
      List.inj_on_of_nodup_map hsub hxmem hsc (by simpa using hxid)
    subst hxeq
    simp [hscat] at hxcat
  · intro p hp hpcat
    simp only [findProduct, hardDeleteStep1, hardDeleteStep2, hardDeleteStep3]
    rw [List.find?_eq_none]
    intro x hx
    rw [List.mem_filter] at hx
    obtain ⟨hxmem, hxcat⟩ := hx
    intro hxid
    have hxeq : x = p :=
      List.inj_on_of_nodup_map hprod hxmem hp (by simpa using hxid)
    subst hxeq
    simp [hpcat] at hxcat
  · intro sc hsc
    simp only [hardDeleteStep1, hardDeleteStep2, hardDeleteStep3] at hsc
    rw [List.mem_filter] at hsc
    simpa using hsc.2
  · intro p hp
    simp only [hardDeleteStep1, hardDeleteStep2, hardDeleteStep3] at hp
    rw [List.mem_filter] at hp
    simpa using hp.2

theorem hardDeleteCategory_cascades_witness :
    (findCategory storeEx 1 = some catEx
      ∧ (storeEx.subcats.map (·.id)).Nodup
      ∧ (storeEx.products.map (·.id)).Nodup)
    ∧ ((deleteCategory true 1 storeEx).1 = DeleteCategoryResult.hardDeleted catEx
      ∧ findCategory (deleteCategory true 1 storeEx).2 1 = none
      ∧ (∀ sc ∈ storeEx.subcats, sc.category = 1 →
          findSubcat (deleteCategory true 1 storeEx).2 sc.id = none)
      ∧ (∀ p ∈ storeEx.products, p.category = 1 →
          findProduct (deleteCategory true 1 storeEx).2 p.id = none)
      ∧ (∀ sc ∈ (deleteCategory true 1 storeEx).2.subcats, sc.category ≠ 1)
      ∧ (∀ p ∈ (deleteCategory true 1 storeEx).2.products, p.category ≠ 1)
      ∧ findCategory
          (hardDeleteStep2 1
            ((storeEx.subcats.filter (fun sc => sc.category == 1)).map (·.id))
            (hardDeleteStep1 1 storeEx)) 1 = some catEx) :=
  ⟨⟨by decide, by decide, by decide⟩,
    hardDeleteCategory_cascades storeEx 1 catEx (by decide) (by decide) (by decide)⟩

/-- A store with two Categories, one Subcategory owned by the second,
and one Product, used to exercise the referential check. -/
def storeMm : Store :=
  { categories :=
      [{ id := 1, name := "Tools", description := "d", active := true },
       { id := 2, name := "Food", description := "d", active := true }],
    subcats :=
      [{ id := 10, name := "Fruits", description := "d", category := 2, active := true }],
    products :=
      [{ id := 100, name := "Hammer", description := "d", price := 10, stock := 5,
         category := 1, subcategory := 10, active := true }] }

/-- C5 (counterexample): the wrong-parent failure is not a
`ReferentialMismatch` distinct from `NotFound`.  Creating a Product
under Category 1 with Subcategory 10 — which exists but is owned by
Category 2 — produces a result byte-identical to creating it with the
nonexistent Subcategory 99 (one shared 400 answer for both situations),
and `updateProduct` reports the same wrong-parent situation with the
404 NotFound status itself. -/
theorem productMismatch_not_distinct_counterexample :
    createProduct 101 (some "Saw") (some "d") (some 7) (some 3)
        (some 1) (some 10) storeMm =
      (ProductResult.badRequest
        "La subactegoria no existe o no pertence a la categoria especificada", storeMm)
    ∧ createProduct 101 (some "Saw") (some "d") (some 7) (some 3)
          (some 1) (some 10) storeMm =
        createProduct 101 (some "Saw") (some "d") (some 7) (some 3)
          (some 1) (some 99) storeMm
    ∧ (updateProduct 100 none none none none (some 1) (some 10) storeMm).1 =
        ProductResult.notFoundErr
          "La subcategoria no existe o no pertenece a la categoria" :=
  ⟨rfl, rfl, rfl⟩

/-- C5 (amended): creating a Product whose `subcategory` resolves only
to Subcategories of a different Category than the Product's `category`
fails before any write — the store is returned unchanged — with the
same 400 answer that a nonexistent subcategory receives (no distinct
mismatch error), and `updateProduct` answers the same situation with a
404 before its write. -/
theorem productMismatch_rejected_before_write
    (newId : Nat) (n d : String) (pr st catId subId : Nat) (s : Store)
    (c : Category)
    (hn : n ≠ "") (hd : d ≠ "") (hpr : pr ≠ 0) (hst : st ≠ 0)
    (hcat : findCategory s catId = some c)
    (hmm : ∀ x ∈ s.subcats, x.id = subId → x.category ≠ catId) :
    createProduct newId (some n) (some d) (some pr) (some st)
        (some catId) (some subId) s =
      (ProductResult.badRequest
        "La subactegoria no existe o no pertence a la categoria especificada", s)
    ∧ (∀ subId2 : Nat, (∀ x ∈ s.subcats, x.id ≠ subId2) →
        createProduct newId (some n) (some d) (some pr) (some st)
            (some catId) (some subId2) s =
          (ProductResult.badRequest
            "La subactegoria no existe o no pertence a la categoria especificada", s))
    ∧ updateProduct newId none none none none (some catId) (some subId) s =
        (ProductResult.notFoundErr
          "La subcategoria no existe o no pertenece a la categoria", s) := by
  have hguard : (jsTruthyStr (some n) && jsTruthyStr (some d)
      && jsTruthyNum (some pr) && jsTruthyNum (some st)) = true := by
    simp [jsTruthyStr, jsTruthyNum, Bool.eq_false_iff, String.isEmpty_iff,
      hn, hd, hpr, hst]
  have hfind : s.subcats.find?
      (fun sc => sc.id == subId && sc.category == catId) = none := by
    rw [List.find?_eq_none]
    intro x hx
    simp only [Bool.and_eq_true, beq_iff_eq, not_and]
    intro hid
    simpa using hmm x hx hid
  refine ⟨?_, ?_, ?_⟩
  · simp [createProduct, hguard, hcat, hfind]
  · intro subId2 hnone
    have hfind2 : s.subcats.find?
        (fun sc => sc.id == subId2 && sc.category == catId) = none := by
      rw [List.find?_eq_none]
      intro x hx
      simp only [Bool.and_eq_true, beq_iff_eq, not_and]
      intro hid
      exact absurd hid (hnone x hx)
    simp [createProduct, hguard, hcat, hfind2]
  · have hrel : subcatRelationOk s subId (some catId) = false := by
      simp only [subcatRelationOk]
      rw [hfind]
      rfl
    simp [updateProduct, hcat, hrel]

theorem productMismatch_rejected_before_write_witness :
    ("Saw" ≠ "" ∧ "d" ≠ "" ∧ (7 : Nat) ≠ 0 ∧ (3 : Nat) ≠ 0
      ∧ findCategory storeMm 1 = some
          { id := 1, name := "Tools", description := "d", active := true }
      ∧ (∀ x ∈ storeMm.subcats, x.id = 10 → x.category ≠ 1))
    ∧ (createProduct 101 (some "Saw") (some "d") (some 7) (some 3)
          (some 1) (some 10) storeMm =
        (ProductResult.badRequest
          "La subactegoria no existe o no pertence a la categoria especificada", storeMm)
      ∧ (∀ subId2 : Nat, (∀ x ∈ storeMm.subcats, x.id ≠ subId2) →
          createProduct 101 (some "Saw") (some "d") (some 7) (some 3)
              (some 1) (some subId2) storeMm =
            (ProductResult.badRequest
              "La subactegoria no existe o no pertence a la categoria especificada", storeMm))
      ∧ updateProduct 101 none none none none (some 1) (some 10) storeMm =
          (ProductResult.notFoundErr
            "La subcategoria no existe o no pertenece a la categoria", storeMm)) :=
  ⟨⟨by decide, by decide, by decide, by decide, by decide, by decide⟩,
    productMismatch_rejected_before_write 101 "Saw" "d" 7 3 1 10 storeMm
      { id := 1, name := "Tools", description := "d", active := true }
      (by decide) (by decide) (by decide) (by decide) (by decide) (by decide)⟩

/-- C4: the repository offers no reactivation.  `updateCategory`'s
request parameter is declared `reportError`, so the handler throws on
`req.body` and answers 500 for every call, leaving the store unchanged —
in particular a Category deactivated by a cascade can never have its
flag flipped back, and no descendant changes.  `updateSubcategory` never
reads or writes the `active` field and never touches the Product
collection, so flipping (or attempting to flip) a Subcategory revives no
Product and changes no record's `active` flag. -/
theorem reactivation_unavailable_and_never_cascades :
    (∀ (id : Nat) (body : CategoryUpdateBody) (s : Store),
      updateCategory id body s = (UpdateResult.serverError, s))
    ∧ (∀ (id : Nat) (name description : Option String) (category : Option Nat)
        (s : Store),
        (updateSubcategory id name description category s).2.products = s.products
        ∧ ((updateSubcategory id name description category s).2.subcats.map
              (fun sc => (sc.id, sc.active)))
            = s.subcats.map (fun sc => (sc.id, sc.active))) := by
  refine ⟨fun id body s => rfl, fun id name description category s => ?_⟩
  unfold updateSubcategory
  split
  · exact ⟨rfl, rfl⟩
  · split
    · exact ⟨rfl, rfl⟩
    · refine ⟨rfl, ?_⟩
      simp only [List.map_map]
      apply List.map_congr_left
      intro sc _
      by_cases hb : sc.id = id <;> simp [hb]

/-- A two-user directory: an admin and a coordinador. -/
def adminEx : User :=
  { id := 1, username := "root", email := "root@x.co",
    password := .hashed "adminpw", role := "admin", active := true }

def coordEx : User :=
  { id := 2, username := "carla", email := "carla@x.co",
    password := .hashed "coordpw", role := "coordinador", active := true }

/-- C6: whenever the actor's role is `admin` and the target exists —
whatever the target's role, and whether or not it is the actor's own
account — `deleteUser` ends in the 500-class failure thrown by
`userToDelete.role.__id.toString()` (userController.js:264) and the
directory is unchanged: the claimed Forbidden/succeed distinctions are
never reached. -/
theorem deleteUser_admin_actor_always_faults (users : List User)
    (actorId : Nat) (hard : Bool) (targetId : Nat) (target : User)
    (h : users.find? (fun u => u.id == targetId) = some target) :
    deleteUser "admin" actorId hard targetId users =
      (DeleteUserResult.serverError, users) := by
  simp [deleteUser, h]

theorem deleteUser_admin_actor_always_faults_witness :
    [adminEx, coordEx].find? (fun u => u.id == 2) = some coordEx
    ∧ deleteUser "admin" 1 true 2 [adminEx, coordEx] =
        (DeleteUserResult.serverError, [adminEx, coordEx]) :=
  ⟨by decide, deleteUser_admin_actor_always_faults [adminEx, coordEx] 1 true 2
      coordEx (by decide)⟩

/-- C7: every syntactically well-formed login attempt — a truthy
username or email plus a truthy password, whatever the directory
contents, even an existing active account with the right password —
answers 500, because `User.FindOne` (authControllers.js:100) is
`undefined` (the static is `findOne`) and throws; the NotFound /
InvalidCredentials outcomes of the claim are unreachable, and the
lookup never filters on `active`. -/
theorem sigin_always_serverError (users : List User)
    (username email password : Option String)
    (hkey : (jsTruthyStr username || jsTruthyStr email) = true)
    (hpw : jsTruthyStr password = true) :
    sigin username email password users = SigninResult.serverError := by
  have h1 : (!(jsTruthyStr email) && !(jsTruthyStr username)) = false := by
    cases hu : jsTruthyStr username <;> cases he : jsTruthyStr email <;> simp_all
  simp [sigin, h1, hpw]

theorem sigin_always_serverError_witness :
    ((jsTruthyStr (some "carla") || jsTruthyStr none) = true
      ∧ jsTruthyStr (some "coordpw") = true)
    ∧ sigin (some "carla") none (some "coordpw") [adminEx, coordEx] =
        SigninResult.serverError :=
  ⟨⟨by decide, by decide⟩,
    sigin_always_serverError [adminEx, coordEx] (some "carla") none
      (some "coordpw") (by decide) (by decide)⟩

/-- A decoder exposing one well-formed token, `tok`, signed with
`s3cret` and unexpired. -/
def decodeEx : String → Option SignedToken := fun raw =>
  if raw = "tok" then
    some { claims := { id := "u1", role := "admin", email := "a@b.c" },
           signedWith := "s3cret", expired := false }
  else none

/-- C8: the sourcing test `startsWith('bearer')` (authJwt.js:58) is
case-sensitive, so a standard `Authorization: Bearer <token>` header is
treated as absent: with a valid token behind the capitalised prefix and
no secondary header, the verifier answers the no-token 403 instead of
verifying.  The same token passes when the prefix is lowercased or when
carried by `x-access-token`; absence from both locations is the 403,
and a signature made with another secret is the 401. -/
theorem bearerHeader_treated_as_absent :
    verifyTokenfn [("authorization", "Bearer tok")] decodeEx "s3cret" =
      AuthResult.unauthenticated
    ∧ verifyTokenfn [("authorization", "bearer tok")] decodeEx "s3cret" =
        AuthResult.authenticated "u1" "admin" "a@b.c"
    ∧ verifyTokenfn [("x-access-token", "tok")] decodeEx "s3cret" =
        AuthResult.authenticated "u1" "admin" "a@b.c"
    ∧ verifyTokenfn [] decodeEx "s3cret" = AuthResult.unauthenticated
    ∧ verifyTokenfn [("x-access-token", "tok")] decodeEx "wrong" =
        AuthResult.invalidToken := by
  refine ⟨by decide, by decide, by decide, by decide, by decide⟩

/-- C9: on the update path the stored password is the plaintext.  With
an admin actor and an existing target, `updateUser` with a password in
the body writes `plain p` into the directory (no `pre('save')` hook
runs on `findByIdAndUpdate`), `plain p` is never a hash, and — for
contrast — the save-based creation paths store `hashed p`.  The
response is the password-free projection. -/
theorem updateUser_stores_plaintext (users : List User) (actorId targetId : Nat)
    (p : String) (target : User)
    (h : users.find? (fun u => u.id == targetId) = some target) :
    updateUser "admin" actorId targetId
        { username := none, email := none, password := some p,
          role := none, active := none } users =
      (UpdateUserResult.updated
          (applyUserSet target
            { username := none, email := none, password := some p,
              role := none, active := none }).toPublic,
        users.map (fun v =>
          if v.id == targetId then
            applyUserSet target
              { username := none, email := none, password := some p,
                role := none, active := none }
          else v))
    ∧ (applyUserSet target
        { username := none, email := none, password := some p,
          role := none, active := none }).password = StoredPassword.plain p
    ∧ (∀ q : String, StoredPassword.plain p ≠ StoredPassword.hashed q)
    ∧ (∀ (nid : Nat) (un em role : String),
        (saveNewUser nid un em p role users).map (fun u => u.password) =
          users.map (fun u => u.password) ++ [StoredPassword.hashed p]) := by
  refine ⟨?_, rfl, ?_, ?_⟩
  · simp [updateUser, h]
  · intro q
    simp
  · intro nid un em role
    simp [saveNewUser]

theorem updateUser_stores_plaintext_witness :
    [adminEx, coordEx].find? (fun u => u.id == 2) = some coordEx
    ∧ (updateUser "admin" 1 2
          { username := none, email := none, password := some "hunter2",
            role := none, active := none } [adminEx, coordEx] =
        (UpdateUserResult.updated
            (applyUserSet coordEx
              { username := none, email := none, password := some "hunter2",
                role := none, active := none }).toPublic,
          [adminEx, coordEx].map (fun v =>
            if v.id == 2 then
              applyUserSet coordEx
                { username := none, email := none, password := some "hunter2",
                  role := none, active := none }
            else v))
      ∧ (applyUserSet coordEx
          { username := none, email := none, password := some "hunter2",
            role := none, active := none }).password =
            StoredPassword.plain "hunter2"
      ∧ (∀ q : String,
          StoredPassword.plain "hunter2" ≠ StoredPassword.hashed q)
      ∧ (∀ (nid : Nat) (un em role : String),
          (saveNewUser nid un em "hunter2" role [adminEx, coordEx]).map
              (fun u => u.password) =
            [adminEx, coordEx].map (fun u => u.password)
              ++ [StoredPassword.hashed "hunter2"])) :=
  ⟨by decide,
    updateUser_stores_plaintext [adminEx, coordEx] 1 2 "hunter2" coordEx (by decide)⟩

/-- C10: no read route attaches a credential check, but the Category
list endpoint still never succeeds — `.scort` (categoryController.js:101)
throws on every call, credential or not — while the Product and
Subcategory list endpoints, with `includeInactive=true`, return every
stored record, the inactive ones included. -/
theorem openReads_category_list_faults :
    (∀ (b : Bool) (s : Store), getCategories b s = ListCategoriesResult.serverError)
    ∧ (∀ s : Store, getProductsList true s = s.products)
    ∧ (∀ s : Store, getSubcategoriesList true s = s.subcats) := by
  refine ⟨fun b s => rfl, fun s => ?_, fun s => ?_⟩
  · simp [getProductsList]
  · simp [getSubcategoriesList]

end Inventario
